import Mathlib

/-!
Shallow embedding of the apiDirectory data-access layer:
`src/backend/node/express/databases/mongodb/index.js` (class `DB`) together
with its error module `errors.js` and the schema declaration at the top of
`index.js`.  JavaScript numbers are modelled as `NaN`-or-rational, the Mongo
collection as a list of documents, and each async repository method as a
function from the store to `Except` of error kinds (a throw) or a result plus
the updated store (a resolved promise).  The two batch methods run their
`Promise.all` fan-out serialised left to right, one admissible schedule of the
concurrent execution.
-/

namespace ApiDirectory

/-- `0.01`, the lower price bound written `.01` at index.js line 113, as an
exact rational (built by the `Rat` constructor so that kernel evaluation works). -/
def q001 : ℚ := ⟨1, 100, by norm_num, by norm_num⟩

/-- The rational `5.99`, used by the spec's round-trip scenarios. -/
def q599 : ℚ := ⟨599, 100, by norm_num, by norm_num⟩

/-- The rational `1.5`, a non-integer probe value. -/
def q15 : ℚ := ⟨3, 2, by norm_num, by norm_num⟩

/-- A JavaScript number: `NaN` or a finite value modelled as a rational. -/
inductive JSNum where
  | nan : JSNum
  | num : ℚ → JSNum
deriving DecidableEq, Repr

/-- A JavaScript value, restricted to the shapes this layer manipulates. -/
inductive JSVal where
  | undef : JSVal
  | nullV : JSVal
  | boolV : Bool → JSVal
  | numV : JSNum → JSVal
  | strV : String → JSVal
deriving DecidableEq, Repr

/-- JavaScript truthiness, as used by `!id`, `productName && ...` and `?? `:
`undefined`, `null`, `false`, `0`, `NaN` and `""` are falsy. -/
def JSVal.truthy : JSVal → Bool
  | .undef => false
  | .nullV => false
  | .boolV b => b
  | .numV .nan => false
  | .numV (.num q) => decide (q ≠ 0)
  | .strV s => decide (s ≠ "")

instance {ε α : Type} [DecidableEq ε] [DecidableEq α] : DecidableEq (Except ε α) := fun x y =>
  match x, y with
  | .error a, .error b =>
    if h : a = b then isTrue (congrArg Except.error h)
    else isFalse (fun he => h (by injection he))
  | .error _, .ok _ => isFalse (fun he => Except.noConfusion he)
  | .ok _, .error _ => isFalse (fun he => Except.noConfusion he)
  | .ok a, .ok b =>
    if h : a = b then isTrue (congrArg Except.ok h)
    else isFalse (fun he => h (by injection he))

/-- The test `typeof v === 'number'`. -/
def JSVal.isNumber : JSVal → Bool
  | .numV _ => true
  | _ => false

/-- JavaScript `v < q` against a numeric constant: `NaN` compares false.
The validators only evaluate this after `typeof v === 'number'` has passed. -/
def JSVal.ltNum : JSVal → ℚ → Bool
  | .numV (.num x), q => decide (x < q)
  | _, _ => false

/-- JavaScript `v > q` against a numeric constant: `NaN` compares false. -/
def JSVal.gtNum : JSVal → ℚ → Bool
  | .numV (.num x), q => decide (q < x)
  | _, _ => false

/-- The nullish-coalescing operator `a ?? b`: `b` exactly when `a` is
`null` or `undefined`; every other value, falsy ones included, is kept. -/
def nullish (a b : JSVal) : JSVal :=
  match a with
  | .nullV => b
  | .undef => b
  | v => v

/-- Error kinds observable from this layer.  The first seven correspond to the
classes declared in `errors.js`.  `TypeErrorNotCtor` models the `TypeError`
raised when `index.js` evaluates `new errors.InvalidStockError()`: the
`module.exports` object of `errors.js` lists `InvalidPriceError` twice and
never exports `InvalidStockError`, so that property is `undefined` and calling
`new` on it raises a `TypeError` instead of the intended error. -/
inductive JSError where
  | ProductIdExists
  | ProductIdNotExists
  | IdNotDefined
  | InvalidId
  | InvalidProductName
  | InvalidPrice
  | InvalidStock
  | TypeErrorNotCtor
deriving DecidableEq, Repr

/-- A stored Product document carrying the fields the repository code reads and
writes (`addProduct`, index.js lines 227-232): `id`, `productName`, `price`,
`stock`. -/
structure Product where
  id : JSVal
  productName : JSVal
  price : JSVal
  stock : JSVal
deriving DecidableEq, Repr

/-- The Products collection, in insertion order. -/
abbrev Store := List Product

/-- The lookup `(await ProductModel.find({id}).exec())[0]`: the first stored
document whose id equals `id`, or `none` for JavaScript `undefined`. -/
def findById (id : JSVal) (store : Store) : Option Product :=
  store.find? (fun p => decide (p.id = id))

/-- `Product.save()` on a document obtained from `find({id})`: the first
document with that id is replaced by the mutated one. -/
def replaceById (id : JSVal) (newP : Product) : Store → Store
  | [] => []
  | p :: rest => if p.id = id then newP :: rest else p :: replaceById id newP rest

/-- The character class `[A-Za-z0-9- ]` of the `validateProductName` regex. -/
def nameClassChar (c : Char) : Bool :=
  (decide ('A' ≤ c) && decide (c ≤ 'Z')) || (decide ('a' ≤ c) && decide (c ≤ 'z')) ||
    (decide ('0' ≤ c) && decide (c ≤ '9')) || decide (c = '-') || decide (c = ' ')

/-- The regex at index.js line 98 is `/[A-Za-z0-9- ]{3, 24}/`.  Because the
quantifier text contains a space, JavaScript does not parse it as a repetition
count: the seven characters between the braces, braces included, are matched
literally. -/
def quantifierLiteral : List Char :=
  ['\x7b', '3', ',', ' ', '2', '4', '\x7d']

/-- Decides whether `pat` occurs verbatim at the head of `cs`. -/
def startsWithChars : List Char → List Char → Bool
  | [], _ => true
  | _ :: _, [] => false
  | a :: as, b :: bs => decide (a = b) && startsWithChars as bs

/-- Unanchored scan performed by `String.prototype.match`: some suffix begins
with one class character followed by the literal quantifier text. -/
def regexHit : List Char → Bool
  | [] => false
  | c :: rest => (nameClassChar c && startsWithChars quantifierLiteral rest) || regexHit rest

/-- Truthiness of `productName.match(/[A-Za-z0-9- ]{3, 24}/)`. -/
def nameMatchOk (s : String) : Bool := regexHit s.data

/-- validateId, index.js lines 79-87.  `mutation` defaults to `false` at the
call sites that omit it.  The store is consulted by the `ProductModel.find`
existence pre-check of the third branch. -/
def validateId (id : JSVal) (mutation : Bool) (store : Store) : Except JSError Unit :=
  if !id.truthy then .error .IdNotDefined
  else if !id.isNumber || id.ltNum 1 then .error .InvalidId
  else if !mutation && (findById id store).isSome then .error .ProductIdExists
  else .ok ()

/-- validateProductName, index.js lines 95-102: throws unless the argument is a
string whose `match` against the (malformed) regex is truthy. -/
def validateProductName (productName : JSVal) : Except JSError Unit :=
  match productName with
  | .strV s => if nameMatchOk s then .ok () else .error .InvalidProductName
  | _ => .error .InvalidProductName

/-- validatePrice, index.js lines 110-118: throws unless the argument is
number-typed, at least `.01` and at most `9999` (both comparisons are false on
`NaN`, which therefore passes). -/
def validatePrice (price : JSVal) : Except JSError Unit :=
  if !price.isNumber || price.ltNum q001 || price.gtNum 9999 then .error .InvalidPrice
  else .ok ()

/-- validateStock, index.js lines 126-134: throws unless the argument is
number-typed, at least `0` and at most `9999`.  There is no integrality test,
and the throw site raises `TypeErrorNotCtor`, see `JSError`. -/
def validateStock (stock : JSVal) : Except JSError Unit :=
  if !stock.isNumber || stock.ltNum 0 || stock.gtNum 9999 then .error .TypeErrorNotCtor
  else .ok ()

/-- getProduct, index.js lines 142-150: validateId in non-mutation mode, then
return `find({id})[0]` (`none` models `undefined`). -/
def getProduct (id : JSVal) (store : Store) : Except JSError (Option Product) :=
  match validateId id false store with
  | .error e => .error e
  | .ok _ => .ok (findById id store)

/-- addProduct, index.js lines 217-236: validate id (non-mutation), name,
price, stock in that order, then save a new document and return it. -/
def addProduct (id productName price stock : JSVal) (store : Store) :
    Except JSError (Product × Store) :=
  match validateId id false store with
  | .error e => .error e
  | .ok _ =>
    match validateProductName productName with
    | .error e => .error e
    | .ok _ =>
      match validatePrice price with
      | .error e => .error e
      | .ok _ =>
        match validateStock stock with
        | .error e => .error e
        | .ok _ =>
          let P : Product := ⟨id, productName, price, stock⟩
          .ok (P, store ++ [P])

/-- updateProductName, index.js lines 245-264: validate id in mutation mode and
the name, look the document up, throw ProductIdNotExists when absent, otherwise
overwrite the name and save. -/
def updateProductName (id productName : JSVal) (store : Store) :
    Except JSError (Product × Store) :=
  match validateId id true store with
  | .error e => .error e
  | .ok _ =>
    match validateProductName productName with
    | .error e => .error e
    | .ok _ =>
      match findById id store with
      | none => .error .ProductIdNotExists
      | some P =>
        let P2 : Product := { P with productName := productName }
        .ok (P2, replaceById id P2 store)

/-- updateProductPrice, index.js lines 273-292. -/
def updateProductPrice (id price : JSVal) (store : Store) :
    Except JSError (Product × Store) :=
  match validateId id true store with
  | .error e => .error e
  | .ok _ =>
    match validatePrice price with
    | .error e => .error e
    | .ok _ =>
      match findById id store with
      | none => .error .ProductIdNotExists
      | some P =>
        let P2 : Product := { P with price := price }
        .ok (P2, replaceById id P2 store)

/-- updateProductStock, index.js lines 301-320. -/
def updateProductStock (id stock : JSVal) (store : Store) :
    Except JSError (Product × Store) :=
  match validateId id true store with
  | .error e => .error e
  | .ok _ =>
    match validateStock stock with
    | .error e => .error e
    | .ok _ =>
      match findById id store with
      | none => .error .ProductIdNotExists
      | some P =>
        let P2 : Product := { P with stock := stock }
        .ok (P2, replaceById id P2 store)

/-- updateProduct, index.js lines 331-354: each field argument (default
`null`) is validated only when truthy (`productName && this.validate...`),
and applied through `?? `, which keeps the old value only for `null` and
`undefined`; falsy non-null arguments are therefore written unvalidated. -/
def updateProduct (id productName price stock : JSVal) (store : Store) :
    Except JSError (Product × Store) :=
  match validateId id true store with
  | .error e => .error e
  | .ok _ =>
    match (if productName.truthy then validateProductName productName else .ok ()) with
    | .error e => .error e
    | .ok _ =>
      match (if price.truthy then validatePrice price else .ok ()) with
      | .error e => .error e
      | .ok _ =>
        match (if stock.truthy then validateStock stock else .ok ()) with
        | .error e => .error e
        | .ok _ =>
          match findById id store with
          | none => .error .ProductIdNotExists
          | some P =>
            let P2 : Product :=
              ⟨P.id, nullish productName P.productName, nullish price P.price,
                nullish stock P.stock⟩
            .ok (P2, replaceById id P2 store)

/-- One element of the array arguments of the batch methods. -/
structure ProductInput where
  id : JSVal
  productName : JSVal
  price : JSVal
  stock : JSVal
deriving DecidableEq, Repr

/-- addProducts, index.js lines 378-386:
`Promise.all(Products.map(Product => db.addProduct(...)))`, serialised left to
right; the first rejection becomes the error of the whole batch call. -/
def addProducts : List ProductInput → Store → Except JSError (List Product × Store)
  | [], store => .ok ([], store)
  | it :: rest, store =>
    match addProduct it.id it.productName it.price it.stock store with
    | .error e => .error e
    | .ok (p, store2) =>
      match addProducts rest store2 with
      | .error e => .error e
      | .ok (ps, store3) => .ok (p :: ps, store3)

/-- updateProducts, index.js lines 362-370, serialised like `addProducts`. -/
def updateProducts : List ProductInput → Store → Except JSError (List Product × Store)
  | [], store => .ok ([], store)
  | it :: rest, store =>
    match updateProduct it.id it.productName it.price it.stock store with
    | .error e => .error e
    | .ok (p, store2) =>
      match updateProducts rest store2 with
      | .error e => .error e
      | .ok (ps, store3) => .ok (p :: ps, store3)

/-- The field names declared by `productSchema`, index.js lines 4-12.  The
string field is declared under the name `product`. -/
def productSchemaFields : List String := ["id", "product", "price", "stock"]

/-- The field names `addProduct` writes into the new document it saves,
index.js lines 227-232. -/
def addProductDocFields : List String := ["id", "productName", "price", "stock"]

/-- Spec field rule for names (spec section 3): a string of 3 to 24 characters
over `[A-Za-z0-9- ]`.  Stated from the spec for comparison with the code. -/
def specNameOk : JSVal → Bool
  | .strV s => decide (3 ≤ s.length) && decide (s.length ≤ 24) && s.data.all nameClassChar
  | _ => false

/-- Spec field rule for prices (spec section 3): a number in `[0.01, 9999]`. -/
def specPriceOk : JSVal → Bool
  | .numV (.num q) => decide (q001 ≤ q) && decide (q ≤ 9999)
  | _ => false

/-- Spec field rule for stock (spec section 3): an integer in `[0, 9999]`. -/
def specStockOk : JSVal → Bool
  | .numV (.num q) => decide (q.den = 1) && decide (0 ≤ q) && decide (q ≤ 9999)
  | _ => false

/-- Spec rule for ids (spec section 3): a positive integer. -/
def specIdOk : JSVal → Bool
  | .numV (.num q) => decide (q.den = 1) && decide (1 ≤ q)
  | _ => false

/-- All three field constraints of the spec's Product data model, plus the id
format rule. -/
def specProductOk (p : Product) : Bool :=
  specIdOk p.id && specNameOk p.productName && specPriceOk p.price && specStockOk p.stock

/-- The ids of the stored documents, in order. -/
def idsOf (store : Store) : List JSVal := store.map Product.id

/-- The spec's store invariant (spec section 3): at most one document per id,
and every stored document satisfies the field constraints. -/
def storeInv (store : Store) : Prop :=
  (idsOf store).Nodup ∧ ∀ p ∈ store, specProductOk p = true

instance : DecidablePred storeInv := fun store => by
  unfold storeInv; infer_instance

/-- Characterisation of a successful validateId run. -/
theorem validateId_ok_iff {id : JSVal} {mutation : Bool} {store : Store} :
    validateId id mutation store = .ok () ↔
      id.truthy = true ∧ id.isNumber = true ∧ id.ltNum 1 = false ∧
        (mutation = false → findById id store = none) := by
  unfold validateId
  cases ht : id.truthy <;> cases hn : id.isNumber <;> cases hl : id.ltNum 1 <;>
    cases hm : mutation <;> cases hf : findById id store <;>
      simp [Option.isSome]

/-- Characterisation of a successful addProduct run. -/
theorem addProduct_ok_iff {id n pr st : JSVal} {store : Store} {P : Product} {store2 : Store} :
    addProduct id n pr st store = .ok (P, store2) ↔
      validateId id false store = .ok () ∧ validateProductName n = .ok () ∧
        validatePrice pr = .ok () ∧ validateStock st = .ok () ∧
        P = ⟨id, n, pr, st⟩ ∧ store2 = store ++ [⟨id, n, pr, st⟩] := by
  unfold addProduct
  cases validateId id false store <;> cases validateProductName n <;>
    cases validatePrice pr <;> cases validateStock st <;>
      simp [eq_comm, and_assoc]

/-- Characterisation of a successful updateProductName run. -/
theorem updateProductName_ok_iff {id n : JSVal} {store : Store} {P2 : Product} {store2 : Store} :
    updateProductName id n store = .ok (P2, store2) ↔
      validateId id true store = .ok () ∧ validateProductName n = .ok () ∧
        ∃ P, findById id store = some P ∧ P2 = { P with productName := n } ∧
          store2 = replaceById id { P with productName := n } store := by
  unfold updateProductName
  cases validateId id true store <;> cases validateProductName n <;>
    cases findById id store <;> simp [eq_comm, and_assoc]

/-- Characterisation of a successful updateProductPrice run. -/
theorem updateProductPrice_ok_iff {id pr : JSVal} {store : Store} {P2 : Product} {store2 : Store} :
    updateProductPrice id pr store = .ok (P2, store2) ↔
      validateId id true store = .ok () ∧ validatePrice pr = .ok () ∧
        ∃ P, findById id store = some P ∧ P2 = { P with price := pr } ∧
          store2 = replaceById id { P with price := pr } store := by
  unfold updateProductPrice
  cases validateId id true store <;> cases validatePrice pr <;>
    cases findById id store <;> simp [eq_comm, and_assoc]

/-- Characterisation of a successful updateProductStock run. -/
theorem updateProductStock_ok_iff {id st : JSVal} {store : Store} {P2 : Product} {store2 : Store} :
    updateProductStock id st store = .ok (P2, store2) ↔
      validateId id true store = .ok () ∧ validateStock st = .ok () ∧
        ∃ P, findById id store = some P ∧ P2 = { P with stock := st } ∧
          store2 = replaceById id { P with stock := st } store := by
  unfold updateProductStock
  cases validateId id true store <;> cases validateStock st <;>
    cases findById id store <;> simp [eq_comm, and_assoc]

/-- Characterisation of a successful updateProduct run. -/
theorem updateProduct_ok_iff {id n pr st : JSVal} {store : Store} {P2 : Product}
    {store2 : Store} :
    updateProduct id n pr st store = .ok (P2, store2) ↔
      validateId id true store = .ok () ∧
        (if n.truthy then validateProductName n else .ok ()) = .ok () ∧
        (if pr.truthy then validatePrice pr else .ok ()) = .ok () ∧
        (if st.truthy then validateStock st else .ok ()) = .ok () ∧
        ∃ P, findById id store = some P ∧
          P2 = ⟨P.id, nullish n P.productName, nullish pr P.price, nullish st P.stock⟩ ∧
          store2 = replaceById id
            (⟨P.id, nullish n P.productName, nullish pr P.price, nullish st P.stock⟩ : Product)
            store := by
  unfold updateProduct
  cases validateId id true store <;>
    cases (if n.truthy then validateProductName n else Except.ok ()) <;>
      cases (if pr.truthy then validatePrice pr else Except.ok ()) <;>
        cases (if st.truthy then validateStock st else Except.ok ()) <;>
          cases findById id store <;> simp [eq_comm, and_assoc]

/-- An absent id means no stored document carries it. -/
theorem findById_none_iff {id : JSVal} {store : Store} :
    findById id store = none ↔ ∀ p ∈ store, p.id ≠ id := by
  simp [findById, List.find?_eq_none]

/-- A found document carries the id it was looked up by. -/
theorem findById_some_id {id : JSVal} {store : Store} {P : Product}
    (h : findById id store = some P) : P.id = id := by
  have h2 := List.find?_some h
  simpa using h2

theorem idsOf_append (store : Store) (P : Product) :
    idsOf (store ++ [P]) = idsOf store ++ [P.id] := by
  simp [idsOf]

/-- Saving a mutated document back under its own id leaves the id list intact. -/
theorem idsOf_replaceById (id : JSVal) (newP : Product) (h : newP.id = id)
    (store : Store) : idsOf (replaceById id newP store) = idsOf store := by
  induction store with
  | nil => rfl
  | cons p rest ih =>
    by_cases hp : p.id = id
    · simp [replaceById, hp, idsOf, h]
    · simp only [replaceById, if_neg hp, idsOf, List.map_cons]
      simp only [idsOf] at ih
      rw [ih]

/-- addProduct preserves the one-document-per-id invariant. -/
theorem addProduct_nodup {id n pr st : JSVal} {store : Store} {P : Product} {store2 : Store}
    (hnd : (idsOf store).Nodup) (h : addProduct id n pr st store = .ok (P, store2)) :
    (idsOf store2).Nodup := by
  rcases addProduct_ok_iff.mp h with ⟨hid, -, -, -, -, hst⟩
  subst hst
  rw [idsOf_append]
  have hnone : findById id store = none := (validateId_ok_iff.mp hid).2.2.2 rfl
  have hnotmem : id ∉ idsOf store := by
    rw [findById_none_iff] at hnone
    intro hmem
    obtain ⟨p, hp, hpid⟩ := List.mem_map.mp hmem
    exact hnone p hp hpid
  simp [List.nodup_append, hnd, hnotmem]

/-- updateProductName preserves the one-document-per-id invariant. -/
theorem updateProductName_nodup {id n : JSVal} {store : Store} {P2 : Product} {store2 : Store}
    (hnd : (idsOf store).Nodup) (h : updateProductName id n store = .ok (P2, store2)) :
    (idsOf store2).Nodup := by
  rcases updateProductName_ok_iff.mp h with ⟨-, -, P, hfind, -, hst⟩
  subst hst
  have hPid : P.id = id := findById_some_id hfind
  have h2 : idsOf (replaceById id { P with productName := n } store) = idsOf store :=
    idsOf_replaceById id { P with productName := n } hPid store
  rw [h2]
  exact hnd

/-- updateProductPrice preserves the one-document-per-id invariant. -/
theorem updateProductPrice_nodup {id pr : JSVal} {store : Store} {P2 : Product} {store2 : Store}
    (hnd : (idsOf store).Nodup) (h : updateProductPrice id pr store = .ok (P2, store2)) :
    (idsOf store2).Nodup := by
  rcases updateProductPrice_ok_iff.mp h with ⟨-, -, P, hfind, -, hst⟩
  subst hst
  have hPid : P.id = id := findById_some_id hfind
  have h2 : idsOf (replaceById id { P with price := pr } store) = idsOf store :=
    idsOf_replaceById id { P with price := pr } hPid store
  rw [h2]
  exact hnd

/-- updateProductStock preserves the one-document-per-id invariant. -/
theorem updateProductStock_nodup {id st : JSVal} {store : Store} {P2 : Product} {store2 : Store}
    (hnd : (idsOf store).Nodup) (h : updateProductStock id st store = .ok (P2, store2)) :
    (idsOf store2).Nodup := by
  rcases updateProductStock_ok_iff.mp h with ⟨-, -, P, hfind, -, hst⟩
  subst hst
  have hPid : P.id = id := findById_some_id hfind
  have h2 : idsOf (replaceById id { P with stock := st } store) = idsOf store :=
    idsOf_replaceById id { P with stock := st } hPid store
  rw [h2]
  exact hnd

/-- updateProduct preserves the one-document-per-id invariant. -/
theorem updateProduct_nodup {id n pr st : JSVal} {store : Store} {P2 : Product} {store2 : Store}
    (hnd : (idsOf store).Nodup) (h : updateProduct id n pr st store = .ok (P2, store2)) :
    (idsOf store2).Nodup := by
  rcases updateProduct_ok_iff.mp h with ⟨-, -, -, -, P, hfind, -, hst⟩
  subst hst
  have hPid : P.id = id := findById_some_id hfind
  have h2 : idsOf (replaceById id
      (⟨P.id, nullish n P.productName, nullish pr P.price, nullish st P.stock⟩ : Product) store) =
      idsOf store :=
    idsOf_replaceById id
      (⟨P.id, nullish n P.productName, nullish pr P.price, nullish st P.stock⟩ : Product)
      hPid store
  rw [h2]
  exact hnd

/-- addProducts preserves the one-document-per-id invariant. -/
theorem addProducts_nodup : ∀ (items : List ProductInput) (store : Store) (ps : List Product)
    (store2 : Store), (idsOf store).Nodup → addProducts items store = .ok (ps, store2) →
      (idsOf store2).Nodup := by
  intro items
  induction items with
  | nil =>
    intro store ps store2 hnd h
    unfold addProducts at h
    simp only [Except.ok.injEq, Prod.mk.injEq] at h
    rw [← h.2]
    exact hnd
  | cons it rest ih =>
    intro store ps store2 hnd h
    unfold addProducts at h
    split at h
    · exact absurd h (by simp)
    · rename_i p storeM ha
      split at h
      · exact absurd h (by simp)
      · rename_i ps2 store3 hb
        simp only [Except.ok.injEq, Prod.mk.injEq] at h
        rw [← h.2]
        exact ih storeM ps2 store3 (addProduct_nodup hnd ha) hb

/-- updateProducts preserves the one-document-per-id invariant. -/
theorem updateProducts_nodup : ∀ (items : List ProductInput) (store : Store)
    (ps : List Product) (store2 : Store), (idsOf store).Nodup →
      updateProducts items store = .ok (ps, store2) → (idsOf store2).Nodup := by
  intro items
  induction items with
  | nil =>
    intro store ps store2 hnd h
    unfold updateProducts at h
    simp only [Except.ok.injEq, Prod.mk.injEq] at h
    rw [← h.2]
    exact hnd
  | cons it rest ih =>
    intro store ps store2 hnd h
    unfold updateProducts at h
    split at h
    · exact absurd h (by simp)
    · rename_i p storeM ha
      split at h
      · exact absurd h (by simp)
      · rename_i ps2 store3 hb
        simp only [Except.ok.injEq, Prod.mk.injEq] at h
        rw [← h.2]
        exact ih storeM ps2 store3 (updateProduct_nodup hnd ha) hb

/-- Appending a document with a previously absent id makes it the one found. -/
theorem findById_append_last (id : JSVal) (p : Product) (hp : p.id = id) :
    ∀ store : Store, findById id store = none → findById id (store ++ [p]) = some p := by
  intro store
  induction store with
  | nil =>
    intro _
    simp [findById, hp]
  | cons q rest ih =>
    intro h
    by_cases hq : q.id = id
    · exfalso
      unfold findById at h
      rw [List.find?_cons_of_pos _ (by simp [hq])] at h
      exact Option.noConfusion h
    · unfold findById at h ⊢
      rw [List.find?_cons_of_neg _ (by simp [hq])] at h
      rw [List.cons_append, List.find?_cons_of_neg _ (by simp [hq])]
      exact ih h

/-- C1: the claim asserts that for a fresh id, addProduct(id, "pizza", 5.99, 55)
succeeds and getProduct(id) then returns that Product.  The code refutes both
halves: addProduct(1, "pizza", 5.99, 55) on the empty store throws
InvalidProductName, because the malformed regex of validateProductName never
matches "pizza"; and getProduct on an id that IS stored throws ProductIdExists,
because getProduct calls validateId in non-mutation mode, which treats the
existence of the requested document as an error. -/
theorem C1_code_bug :
    addProduct (.numV (.num 1)) (.strV "pizza") (.numV (.num q599)) (.numV (.num 55)) [] =
      .error .InvalidProductName ∧
    getProduct (.numV (.num 1))
        [⟨.numV (.num 1), .strV "pizza", .numV (.num q599), .numV (.num 55)⟩] =
      .error .ProductIdExists := by
  decide

/-- C2: the claim says validateProductName accepts exactly the strings of 3 to
24 characters over [A-Za-z0-9- ], in particular "cheese".  The code refutes it
in both directions: "cheese" is rejected, while a 25-character string that
contains the literal text of the malformed quantifier (characters outside the
class included) is accepted. -/
theorem C2_code_bug :
    validateProductName (.strV "cheese") = .error .InvalidProductName ∧
    String.length "aaaaaaaaaaaaaaaaaa\x7b3, 24\x7d" = 25 ∧
    validateProductName (.strV "aaaaaaaaaaaaaaaaaa\x7b3, 24\x7d") = .ok () := by
  decide

/-- C5: the claim says validateStock raises InvalidStock exactly on arguments
that are not integers in [0, 9999], in particular on 1.5.  The code refutes
both halves: it has no integrality test, so the non-integer 1.5 is accepted;
and on a failing argument such as -1 the raised error is the TypeError kind
(errors.js never exports InvalidStockError), not InvalidStock. -/
theorem C5_code_bug :
    validateStock (.numV (.num q15)) = .ok () ∧
    validateStock (.numV (.num (-1))) = .error .TypeErrorNotCtor ∧
    validateStock (.numV (.num (-1))) ≠ .error .InvalidStock := by
  decide

/-- C6 counterexample: the claim says validateId raises InvalidId on every
non-integer number such as 1.5.  The code accepts 1.5 in both modes: the only
number test is `typeof id !== 'number' || id < 1`. -/
theorem C6_counterexample :
    validateId (.numV (.num q15)) true [] = .ok () ∧
    validateId (.numV (.num q15)) false [] = .ok () ∧
    (JSVal.numV (.num q15)).isNumber = true ∧ q15.den ≠ 1 := by
  decide

/-- C6 amended: validateId raises IdNotDefined exactly on falsy ids; InvalidId
exactly on truthy ids that are not number-typed or are below 1 — with no
integrality requirement, so the non-integer 1.5 passes; and ProductIdExists
exactly on truthy, number-typed ids at least 1, when mutation mode is off and a
document with that id is stored. -/
theorem C6_amended (id : JSVal) (mutation : Bool) (store : Store) :
    (validateId id mutation store = .error .IdNotDefined ↔ id.truthy = false) ∧
    (validateId id mutation store = .error .InvalidId ↔
      id.truthy = true ∧ (id.isNumber = false ∨ id.ltNum 1 = true)) ∧
    (validateId id mutation store = .error .ProductIdExists ↔
      id.truthy = true ∧ id.isNumber = true ∧ id.ltNum 1 = false ∧ mutation = false ∧
        (findById id store).isSome = true) ∧
    validateId (.numV (.num q15)) mutation [] = .ok () := by
  have hlast : validateId (.numV (.num q15)) mutation [] = .ok () := by
    cases mutation <;> decide
  refine ⟨?_, ?_, ?_, hlast⟩
  all_goals
    unfold validateId
    cases ht : id.truthy <;> cases hn : id.isNumber <;> cases hl : id.ltNum 1 <;>
      cases hm : mutation <;> cases hf : findById id store <;> simp [Option.isSome]

/-- C7: the claim says the persisted document layout has a field named
productName.  The schema declaration disagrees with the rest of the code: the
repository writes a field named productName, but productSchema declares the
string field under the name product and has no productName path (so mongoose
strict mode silently drops what addProduct writes there). -/
theorem C7_code_bug :
    "productName" ∈ addProductDocFields ∧
    "productName" ∉ productSchemaFields ∧
    "product" ∈ productSchemaFields := by
  decide

/-- C3 counterexample: the claim says a falsy-but-valid field value passed to
updateProduct is neither validated nor applied, leaving the stored field
unchanged.  With stock 0 (falsy, and a valid stock) the code skips validation
but DOES apply the value: `stock ?? Product.stock` keeps the old value only for
null/undefined, so the stored stock changes from 7 to 0. -/
theorem C3_counterexample :
    updateProduct (.numV (.num 1)) .nullV .nullV (.numV (.num 0))
        [⟨.numV (.num 1), .strV "abc", .numV (.num 5), .numV (.num 7)⟩] =
      .ok (⟨.numV (.num 1), .strV "abc", .numV (.num 5), .numV (.num 0)⟩,
        [⟨.numV (.num 1), .strV "abc", .numV (.num 5), .numV (.num 0)⟩]) ∧
    (JSVal.numV (.num 0) : JSVal) ≠ .numV (.num 7) := by
  decide

/-- C3 amended: a falsy field value supplied to updateProduct skips validation,
but only null/undefined values are skipped for application.  For a stored
Product and a falsy non-null, non-undefined stock value v (such as 0), the call
succeeds without validating v and writes v into the stored document, leaving
the other fields unchanged; passing null leaves every field unchanged. -/
theorem C3_amended (id v : JSVal) (store : Store) (P : Product)
    (hid : validateId id true store = .ok ())
    (hfind : findById id store = some P)
    (hv : v.truthy = false) :
    (v ≠ .nullV → v ≠ .undef →
      updateProduct id .nullV .nullV v store =
        .ok (⟨P.id, P.productName, P.price, v⟩,
          replaceById id ⟨P.id, P.productName, P.price, v⟩ store)) ∧
    updateProduct id .nullV .nullV .nullV store =
      .ok (⟨P.id, P.productName, P.price, P.stock⟩,
        replaceById id ⟨P.id, P.productName, P.price, P.stock⟩ store) := by
  constructor
  · intro hnn hnu
    have hnl : nullish v P.stock = v := by
      cases v with
      | undef => exact absurd rfl hnu
      | nullV => exact absurd rfl hnn
      | boolV b => rfl
      | numV m => rfl
      | strV s => rfl
    refine updateProduct_ok_iff.mpr ⟨hid, by decide, by decide, ?_, P, hfind, ?_, ?_⟩
    · rw [hv]
      rfl
    · simp [nullish, hnl]
    · simp [nullish, hnl]
  · refine updateProduct_ok_iff.mpr ⟨hid, by decide, by decide, by decide, P, hfind, ?_, ?_⟩
    · simp [nullish]
    · simp [nullish]

/-- C3 witness: the amended statement instantiated at a store holding one
Product with stock 9 and the falsy stock value 0. -/
theorem C3_witness :
    updateProduct (.numV (.num 2)) .nullV .nullV (.numV (.num 0))
        [⟨.numV (.num 2), .strV "xyz", .numV (.num 6), .numV (.num 9)⟩] =
      .ok (⟨.numV (.num 2), .strV "xyz", .numV (.num 6), .numV (.num 0)⟩,
        [⟨.numV (.num 2), .strV "xyz", .numV (.num 6), .numV (.num 0)⟩]) := by
  have h := C3_amended (.numV (.num 2)) (.numV (.num 0))
    [⟨.numV (.num 2), .strV "xyz", .numV (.num 6), .numV (.num 9)⟩]
    ⟨.numV (.num 2), .strV "xyz", .numV (.num 6), .numV (.num 9)⟩
    (by decide) (by decide) (by decide)
  exact (h.1 (by decide) (by decide)).trans (by decide)

/-- C8: for an id that passes mutation-mode validation but is absent from the
store, every update variant fails with the ProductIdNotExists kind (the spec's
IdNotFound), provided the supplied field values pass their validators; no store
mutation is modelled on the error path, matching the source, whose save only
runs after the lookup succeeds. -/
theorem C8_update_absent_id (id n pr st : JSVal) (store : Store)
    (hid : validateId id true store = .ok ())
    (habs : findById id store = none)
    (hn : validateProductName n = .ok ())
    (hp : validatePrice pr = .ok ())
    (hs : validateStock st = .ok ()) :
    updateProductName id n store = .error .ProductIdNotExists ∧
    updateProductPrice id pr store = .error .ProductIdNotExists ∧
    updateProductStock id st store = .error .ProductIdNotExists ∧
    updateProduct id n pr st store = .error .ProductIdNotExists := by
  refine ⟨?_, ?_, ?_, ?_⟩
  · unfold updateProductName
    rw [hid, hn, habs]
  · unfold updateProductPrice
    rw [hid, hp, habs]
  · unfold updateProductStock
    rw [hid, hs, habs]
  · unfold updateProduct
    have h1 : (if n.truthy then validateProductName n else Except.ok ()) = .ok () := by
      cases n.truthy <;> simp [hn]
    have h2 : (if pr.truthy then validatePrice pr else Except.ok ()) = .ok () := by
      cases pr.truthy <;> simp [hp]
    have h3 : (if st.truthy then validateStock st else Except.ok ()) = .ok () := by
      cases st.truthy <;> simp [hs]
    rw [hid, h1, h2, h3, habs]

/-- C8 witness: id 99999 on the empty store, with field values the validators
accept, fails every update variant with ProductIdNotExists. -/
theorem C8_witness :
    updateProductName (.numV (.num 99999)) (.strV "cd\x7b3, 24\x7d") [] =
      .error .ProductIdNotExists ∧
    updateProductPrice (.numV (.num 99999)) (.numV (.num 5)) [] =
      .error .ProductIdNotExists ∧
    updateProductStock (.numV (.num 99999)) (.numV (.num 5)) [] =
      .error .ProductIdNotExists ∧
    updateProduct (.numV (.num 99999)) (.strV "cd\x7b3, 24\x7d") (.numV (.num 5))
      (.numV (.num 5)) [] = .error .ProductIdNotExists :=
  C8_update_absent_id (.numV (.num 99999)) (.strV "cd\x7b3, 24\x7d") (.numV (.num 5))
    (.numV (.num 5)) [] (by decide) (by decide) (by decide) (by decide) (by decide)

/-- C10: NaN is number-typed and every range comparison against it is false, so
validatePrice and validateStock accept it, and addProduct persists a Product
whose price and stock are both NaN whenever its id and name validations pass. -/
theorem C10_nan_accepted (id n : JSVal) (store : Store)
    (hid : validateId id false store = .ok ())
    (hn : validateProductName n = .ok ()) :
    validatePrice (.numV .nan) = .ok () ∧
    validateStock (.numV .nan) = .ok () ∧
    addProduct id n (.numV .nan) (.numV .nan) store =
      .ok (⟨id, n, .numV .nan, .numV .nan⟩, store ++ [⟨id, n, .numV .nan, .numV .nan⟩]) := by
  refine ⟨by decide, by decide, ?_⟩
  exact addProduct_ok_iff.mpr ⟨hid, hn, by decide, by decide, rfl, rfl⟩

/-- C10 witness: a NaN price and stock stored through addProduct at id 6. -/
theorem C10_witness :
    addProduct (.numV (.num 6)) (.strV "gh\x7b3, 24\x7d") (.numV .nan) (.numV .nan) [] =
      .ok (⟨.numV (.num 6), .strV "gh\x7b3, 24\x7d", .numV .nan, .numV .nan⟩,
        [⟨.numV (.num 6), .strV "gh\x7b3, 24\x7d", .numV .nan, .numV .nan⟩]) := by
  have h := C10_nan_accepted (.numV (.num 6)) (.strV "gh\x7b3, 24\x7d") [] (by decide) (by decide)
  exact h.2.2

/-- C4 counterexample: the claim says no operation ever persists a Product
violating the field constraints.  Starting from a store satisfying the spec
invariant, updateProduct with the falsy price 0 skips validation yet applies
the value, persisting a Product whose price is outside [0.01, 9999]. -/
theorem C4_counterexample :
    storeInv [⟨.numV (.num 3), .strV "bcd", .numV (.num 4), .numV (.num 8)⟩] ∧
    updateProduct (.numV (.num 3)) .nullV (.numV (.num 0)) .nullV
        [⟨.numV (.num 3), .strV "bcd", .numV (.num 4), .numV (.num 8)⟩] =
      .ok (⟨.numV (.num 3), .strV "bcd", .numV (.num 0), .numV (.num 8)⟩,
        [⟨.numV (.num 3), .strV "bcd", .numV (.num 0), .numV (.num 8)⟩]) ∧
    ¬ storeInv [⟨.numV (.num 3), .strV "bcd", .numV (.num 0), .numV (.num 8)⟩] := by
  decide

/-- C4 amended: of the spec invariant, the uniqueness half survives — starting
from a store whose ids are distinct, every repository operation (addProduct,
the three single-field updates, updateProduct, and both batch variants) leaves
the ids distinct — while the field-constraint half fails, as the counterexample
shows. -/
theorem C4_amended (store : Store) (hnd : (idsOf store).Nodup) :
    (∀ id n pr st P store2, addProduct id n pr st store = .ok (P, store2) →
      (idsOf store2).Nodup) ∧
    (∀ id n P store2, updateProductName id n store = .ok (P, store2) →
      (idsOf store2).Nodup) ∧
    (∀ id pr P store2, updateProductPrice id pr store = .ok (P, store2) →
      (idsOf store2).Nodup) ∧
    (∀ id st P store2, updateProductStock id st store = .ok (P, store2) →
      (idsOf store2).Nodup) ∧
    (∀ id n pr st P store2, updateProduct id n pr st store = .ok (P, store2) →
      (idsOf store2).Nodup) ∧
    (∀ items ps store2, addProducts items store = .ok (ps, store2) →
      (idsOf store2).Nodup) ∧
    (∀ items ps store2, updateProducts items store = .ok (ps, store2) →
      (idsOf store2).Nodup) :=
  ⟨fun _ _ _ _ _ _ h => addProduct_nodup hnd h,
   fun _ _ _ _ h => updateProductName_nodup hnd h,
   fun _ _ _ _ h => updateProductPrice_nodup hnd h,
   fun _ _ _ _ h => updateProductStock_nodup hnd h,
   fun _ _ _ _ _ _ h => updateProduct_nodup hnd h,
   fun items ps store2 h => addProducts_nodup items store ps store2 hnd h,
   fun items ps store2 h => updateProducts_nodup items store ps store2 hnd h⟩

/-- C4 witness: adding a fresh id to a one-document store keeps the ids
distinct. -/
theorem C4_witness :
    (idsOf [⟨.numV (.num 1), .strV "abc", .numV (.num 5), .numV (.num 7)⟩,
      ⟨.numV (.num 2), .strV "ab\x7b3, 24\x7d", .numV (.num 5), .numV (.num 7)⟩]).Nodup :=
  (C4_amended [⟨.numV (.num 1), .strV "abc", .numV (.num 5), .numV (.num 7)⟩]
      (by decide)).1
    (.numV (.num 2)) (.strV "ab\x7b3, 24\x7d") (.numV (.num 5)) (.numV (.num 7))
    ⟨.numV (.num 2), .strV "ab\x7b3, 24\x7d", .numV (.num 5), .numV (.num 7)⟩
    [⟨.numV (.num 1), .strV "abc", .numV (.num 5), .numV (.num 7)⟩,
     ⟨.numV (.num 2), .strV "ab\x7b3, 24\x7d", .numV (.num 5), .numV (.num 7)⟩]
    (by decide)

/-- C9: under the serialised schedule of the `Promise.all` fan-out, a batch
whose second element repeats the id of a first element that was added
successfully fails the whole call with ProductIdExists (the spec's
IdAlreadyExists), whatever the second element's other fields are; and every
successful addProducts run returns exactly the Products built from its inputs,
appended to the store in order. -/
theorem C9_batch (a b : ProductInput) (store : Store) (p : Product) (store1 : Store)
    (h1 : addProduct a.id a.productName a.price a.stock store = .ok (p, store1))
    (hdup : b.id = a.id) :
    addProducts [a, b] store = .error .ProductIdExists ∧
    (∀ (items : List ProductInput) (st : Store) (ps : List Product) (st2 : Store),
      addProducts items st = .ok (ps, st2) →
        ps = items.map (fun it => (⟨it.id, it.productName, it.price, it.stock⟩ : Product)) ∧
        st2 = st ++ ps) := by
  constructor
  · rcases addProduct_ok_iff.mp h1 with ⟨hid, -, -, -, hP, hst⟩
    rcases validateId_ok_iff.mp hid with ⟨ht, hnum, hlt, hnone⟩
    have hfind : findById a.id store1 = some p := by
      rw [hst, hP]
      exact findById_append_last a.id _ rfl store (hnone rfl)
    have hv : validateId a.id false store1 = .error .ProductIdExists := by
      unfold validateId
      simp [ht, hnum, hlt, hfind]
    have hadd2 : addProduct b.id b.productName b.price b.stock store1 =
        .error .ProductIdExists := by
      unfold addProduct
      rw [hdup, hv]
    have hrest : addProducts [b] store1 = .error .ProductIdExists := by
      unfold addProducts
      rw [hadd2]
    unfold addProducts
    split
    · rename_i e heq
      rw [h1] at heq
      exact absurd heq (by simp)
    · rename_i p2 storeM heq
      rw [h1] at heq
      simp only [Except.ok.injEq, Prod.mk.injEq] at heq
      rw [← heq.2, hrest]
  · intro items
    induction items with
    | nil =>
      intro st ps st2 h
      unfold addProducts at h
      simp only [Except.ok.injEq, Prod.mk.injEq] at h
      rw [← h.1, ← h.2]
      simp
    | cons it rest ih =>
      intro st ps st2 h
      unfold addProducts at h
      split at h
      · exact absurd h (by simp)
      · rename_i p2 storeM ha
        split at h
        · exact absurd h (by simp)
        · rename_i ps2 store3 hb
          simp only [Except.ok.injEq, Prod.mk.injEq] at h
          rcases addProduct_ok_iff.mp ha with ⟨-, -, -, -, hP2, hstoreM⟩
          obtain ⟨hmap, happ⟩ := ih storeM ps2 store3 hb
          rw [← h.1, ← h.2]
          constructor
          · rw [List.map_cons, hP2, hmap]
          · rw [happ, hstoreM, hP2, hmap]
            simp

/-- C9 witness: a two-element batch repeating id 3 on the empty store fails
with ProductIdExists. -/
theorem C9_witness :
    addProducts [⟨.numV (.num 3), .strV "ef\x7b3, 24\x7d", .numV (.num 7), .numV (.num 8)⟩,
      ⟨.numV (.num 3), .strV "ef\x7b3, 24\x7d", .numV (.num 7), .numV (.num 8)⟩] [] =
      .error .ProductIdExists :=
  (C9_batch ⟨.numV (.num 3), .strV "ef\x7b3, 24\x7d", .numV (.num 7), .numV (.num 8)⟩
    ⟨.numV (.num 3), .strV "ef\x7b3, 24\x7d", .numV (.num 7), .numV (.num 8)⟩ []
    ⟨.numV (.num 3), .strV "ef\x7b3, 24\x7d", .numV (.num 7), .numV (.num 8)⟩
    [⟨.numV (.num 3), .strV "ef\x7b3, 24\x7d", .numV (.num 7), .numV (.num 8)⟩]
    (by decide) rfl).1


end ApiDirectory
